import Mathlib

/-!
Shallow embedding of the payment-authorization core of the repository:
the treasury ledger (`wallet.service.ts`), the policy engine (`engine.ts`
together with the rule evaluators of `rules.ts`), the payment executor
(`executor.ts`), and the x402 protocol client (`x402-client.ts`).

Modelling conventions:
* JavaScript number arithmetic on currency amounts is modelled with exact
  rationals (`ℚ`); the result of `parseAmount` on an amount string is
  modelled as `Option ℚ` (`none` for `null`, i.e. unparsable or
  non-finite input).  The `toFixed(2)` formatting of the stored balance
  strings is the identity on the two-decimal currency values the ledger
  manipulates and is therefore not modelled separately.
* Timestamps (`Date` values) are modelled as integers; the start of the
  current day/month computed from the wall clock inside the rule
  evaluators is passed explicitly as a parameter.
* Per-user records (`Record<string, boolean>` read with an `?? false`
  default) are modelled as total functions `String → Bool`.
* Human-readable message strings that carry numeric payloads are modelled
  by tagged types (`RuleReason`, `ExecError`, `X402Error`) so that every
  distinct message shape of the source corresponds to a distinct value.
* External I/O (the Circle settlement call, HTTP fetches) is modelled by
  passing the outcome of each external call as an explicit parameter.
-/

/-- Status of a recorded treasury transaction (`treasury/types.ts`). -/
inductive TxStatus
  | pending
  | confirmed
  | failed
deriving DecidableEq

/-- Policy decision trace stored on a transaction by the executor. -/
structure PolicyMeta where
  approved : Bool
  appliedPolicies : List String
  blockedBy : Option String := none
deriving DecidableEq

/-- A treasury transaction (`treasury/types.ts`).  The `amount` field holds
the parsed value of the amount string. -/
structure Transaction where
  id : Nat := 0
  txHash : String := ""
  fromAddr : String := ""
  toAddr : String := ""
  amount : Option ℚ := none
  currency : String := "USDC"
  status : TxStatus := .pending
  category : Option String := none
  description : Option String := none
  policy : Option PolicyMeta := none
  userId : Option String := none
  createdAt : ℤ := 0
  confirmedAt : Option ℤ := none
deriving DecidableEq

/-- The date used by history filters and spend aggregation:
`tx.confirmedAt ?? tx.createdAt`. -/
def effectiveDate (tx : Transaction) : ℤ :=
  tx.confirmedAt.getD tx.createdAt

/-- Query object of `getTransactionHistory` with its source defaults
(`limit = 50`, `offset = 0`). -/
structure TransactionHistoryQuery where
  limit : Nat := 50
  offset : Nat := 0
  status : Option TxStatus := none
  startDate : Option ℤ := none
  endDate : Option ℤ := none

/-- Embedding of `getTransactionHistory(query, userId?)` of
`wallet.service.ts`: filter by user, status and date range, then
`slice(offset, offset + limit)`. -/
def getTransactionHistory (transactions : List Transaction)
    (query : TransactionHistoryQuery) (userId : Option String) : List Transaction :=
  let byUser : List Transaction := match userId with
    | some u => transactions.filter (fun tx => tx.userId = some u)
    | none => transactions
  let byStatus : List Transaction := match query.status with
    | some s => byUser.filter (fun tx => tx.status = s)
    | none => byUser
  let byStart : List Transaction := match query.startDate with
    | some d => byStatus.filter (fun tx => d ≤ effectiveDate tx)
    | none => byStatus
  let byEnd : List Transaction := match query.endDate with
    | some d => byStart.filter (fun tx => effectiveDate tx ≤ d)
    | none => byStart
  (byEnd.drop query.offset).take query.limit

/-- The ledger balance (`Balance` of `treasury/types.ts`): `amount` is the
total, plus the `reserved` and `available` parts. -/
structure Balance where
  amount : ℚ
  reserved : ℚ
  available : ℚ
deriving DecidableEq

/-- Embedding of `reserveFunds(amount)` of `wallet.service.ts`: reject a
`null` parse or a non-positive amount, reject an amount above `available`,
otherwise move the amount from `available` to `reserved`.  Returns the new
balance and the boolean result. -/
def reserveFunds (b : Balance) (amt : Option ℚ) : Balance × Bool :=
  match amt with
  | none => (b, false)
  | some toReserve =>
    if toReserve ≤ 0 then (b, false)
    else if b.available < toReserve then (b, false)
    else ({ amount := b.amount, reserved := b.reserved + toReserve,
            available := b.available - toReserve }, true)

/-- Embedding of `releaseFunds(amount)` of `wallet.service.ts`: a no-op
when `reserved` is zero or the amount is `null`/non-positive, otherwise
move `min(amount, reserved)` back from `reserved` to `available`. -/
def releaseFunds (b : Balance) (amt : Option ℚ) : Balance :=
  match amt with
  | none => b
  | some parsedAmount =>
    if b.reserved = 0 ∨ parsedAmount ≤ 0 then b
    else
      let toRelease := min parsedAmount b.reserved
      { amount := b.amount, reserved := b.reserved - toRelease,
        available := b.available + toRelease }

/-- Tagged union of policy rules (`policy/types.ts` and `rules.ts`).
Numeric parameters hold the result of `parseAmount` on the raw parameter;
`unknownType` stands for any `type` string outside the dispatch table. -/
inductive Rule
  | maxPerTransaction (maxAmt : Option ℚ)
  | dailyLimit (limit : Option ℚ)
  | monthlyBudget (budget : Option ℚ)
  | vendorWhitelist (addresses : List String)
  | categoryLimit (limits : List (String × Option ℚ))
  | unknownType (t : String)
deriving DecidableEq

/-- The `type` string of a rule, as recorded in `failedRule`. -/
def Rule.typeStr : Rule → String
  | .maxPerTransaction _ => "maxPerTransaction"
  | .dailyLimit _ => "dailyLimit"
  | .monthlyBudget _ => "monthlyBudget"
  | .vendorWhitelist _ => "vendorWhitelist"
  | .categoryLimit _ => "categoryLimit"
  | .unknownType t => t

/-- A policy (`policy/types.ts`), owner-scoped through `userId` as in the
persisted store. -/
structure Policy where
  id : String
  userId : Option String := none
  name : String
  description : Option String := none
  enabled : Bool := true
  rules : List Rule := []
  createdAt : ℤ := 0
  updatedAt : ℤ := 0
deriving DecidableEq

/-- The payment context handed to `validatePayment`.  `userId` is
`metadata.userId` when that is a string, and `approvedMeta` is the value
of the strict comparison `metadata?.approved === true`. -/
structure PaymentContext where
  amount : Option ℚ
  recipient : String
  category : Option String := none
  description : Option String := none
  userId : Option String := none
  approvedMeta : Bool := false
deriving DecidableEq

/-- Tagged model of the human-readable failure reason strings produced by
the rule evaluators and the safety gates. -/
inductive RuleReason
  | invalidConfig
  | exceedsMax (amount maxAmt : ℚ)
  | exceedsDailyLimit (limit spent : ℚ)
  | exceedsMonthlyBudget (budget spent : ℚ)
  | whitelistEmpty
  | notInWhitelist (recipient : String)
  | invalidCategoryConfig
  | exceedsCategoryLimit (category : String) (limit spent : ℚ)
  | unknownRuleType (t : String)
  | paymentsPausedBySafetySwitch
  | approvalRequiredForFirstSpend
deriving DecidableEq

/-- Result of evaluating one rule. -/
structure RuleResult where
  passed : Bool
  reason : Option RuleReason := none
deriving DecidableEq

/-- JavaScript `s || d` on an optional string: the default replaces both
a missing and an empty (falsy) string. -/
def jsStrOr (s : Option String) (d : String) : String :=
  match s with
  | some v => if v = "" then d else v
  | none => d

/-- The spend aggregation shared by `dailyLimit` and `monthlyBudget` in
`rules.ts`: fetch confirmed history (with the default query limit and no
user filter), keep transactions whose effective date is on or after the
window start, and sum the parsed amounts (unparsable amounts count 0). -/
def confirmedSpendSince (transactions : List Transaction) (windowStart : ℤ) : ℚ :=
  ((getTransactionHistory transactions { status := some .confirmed } none).filter
    (fun tx => windowStart ≤ effectiveDate tx)).foldl
    (fun sum tx => sum + tx.amount.getD 0) 0

/-- The `categoryLimit` aggregation of `rules.ts`: same as
`confirmedSpendSince` but additionally restricted to the category. -/
def confirmedCategorySpendSince (transactions : List Transaction)
    (category : String) (windowStart : ℤ) : ℚ :=
  ((getTransactionHistory transactions { status := some .confirmed } none).filter
    (fun tx => tx.category = some category ∧ windowStart ≤ effectiveDate tx)).foldl
    (fun sum tx => sum + tx.amount.getD 0) 0

/-- Embedding of `evaluateRule` of `rules.ts`, including the dispatch on
the rule type and each evaluator's guards. -/
def evaluateRule (transactions : List Transaction) (dayStart monthStart : ℤ)
    (rule : Rule) (ctx : PaymentContext) : RuleResult :=
  match rule with
  | .maxPerTransaction maxAmt =>
    match ctx.amount, maxAmt with
    | some amount, some m =>
      if amount ≤ 0 ∨ m ≤ 0 then ⟨false, some .invalidConfig⟩
      else if m < amount then ⟨false, some (.exceedsMax amount m)⟩
      else ⟨true, none⟩
    | _, _ => ⟨false, some .invalidConfig⟩
  | .dailyLimit limit =>
    match ctx.amount, limit with
    | some amount, some l =>
      if amount ≤ 0 ∨ l ≤ 0 then ⟨false, some .invalidConfig⟩
      else
        let todaySpend := confirmedSpendSince transactions dayStart
        if l < todaySpend + amount then ⟨false, some (.exceedsDailyLimit l todaySpend)⟩
        else ⟨true, none⟩
    | _, _ => ⟨false, some .invalidConfig⟩
  | .monthlyBudget budget =>
    match ctx.amount, budget with
    | some amount, some b =>
      if amount ≤ 0 ∨ b ≤ 0 then ⟨false, some .invalidConfig⟩
      else
        let monthSpend := confirmedSpendSince transactions monthStart
        if b < monthSpend + amount then ⟨false, some (.exceedsMonthlyBudget b monthSpend)⟩
        else ⟨true, none⟩
    | _, _ => ⟨false, some .invalidConfig⟩
  | .vendorWhitelist addresses =>
    if addresses = [] then ⟨false, some .whitelistEmpty⟩
    else if (addresses.map String.toLower).contains ctx.recipient.toLower then ⟨true, none⟩
    else ⟨false, some (.notInWhitelist ctx.recipient)⟩
  | .categoryLimit limits =>
    let category := jsStrOr ctx.category "uncategorized"
    match limits.lookup category with
    | none => ⟨true, none⟩
    | some rawLimit =>
      match ctx.amount, rawLimit with
      | some amount, some l =>
        if amount ≤ 0 ∨ l ≤ 0 then ⟨false, some .invalidCategoryConfig⟩
        else
          let categorySpend := confirmedCategorySpendSince transactions category monthStart
          if l < categorySpend + amount then
            ⟨false, some (.exceedsCategoryLimit category l categorySpend)⟩
          else ⟨true, none⟩
      | _, _ => ⟨false, some .invalidCategoryConfig⟩
  | .unknownType t => ⟨false, some (.unknownRuleType t)⟩

/-- Per-policy entry of the validation summary. -/
structure PolicyValidationResult where
  passed : Bool
  policyId : String
  policyName : String
  failedRule : Option String := none
  reason : Option RuleReason := none
deriving DecidableEq

/-- The summary returned by `validatePayment`. -/
structure ValidationSummary where
  approved : Bool
  results : List PolicyValidationResult
  blockedBy : Option String := none
deriving DecidableEq

/-- The inner rule loop of `validatePayment`: the first rule whose
evaluation fails, together with its result (remaining rules are
skipped). -/
def firstFailingRule (transactions : List Transaction) (dayStart monthStart : ℤ)
    (ctx : PaymentContext) : List Rule → Option (Rule × RuleResult)
  | [] => none
  | r :: rest =>
    let res := evaluateRule transactions dayStart monthStart r ctx
    if res.passed then firstFailingRule transactions dayStart monthStart ctx rest
    else some (r, res)

/-- One policy's entry in the results list: passes when no rule fails,
otherwise records the first failing rule's type and reason. -/
def evalPolicy (transactions : List Transaction) (dayStart monthStart : ℤ)
    (ctx : PaymentContext) (policy : Policy) : PolicyValidationResult :=
  match firstFailingRule transactions dayStart monthStart ctx policy.rules with
  | none => { passed := true, policyId := policy.id, policyName := policy.name }
  | some (r, res) =>
    { passed := false, policyId := policy.id, policyName := policy.name,
      failedRule := some r.typeStr, reason := res.reason }

/-- One iteration of the policy loop of `validatePayment`: disabled
policies are skipped; an evaluated policy appends its result, conjoins its
verdict into `approved`, and, when it fails, overwrites `blockedBy` with
its name. -/
def policyLoopStep (transactions : List Transaction) (dayStart monthStart : ℤ)
    (ctx : PaymentContext)
    (acc : List PolicyValidationResult × Bool × Option String) (policy : Policy) :
    List PolicyValidationResult × Bool × Option String :=
  if policy.enabled then
    let pr := evalPolicy transactions dayStart monthStart ctx policy
    (acc.1 ++ [pr], acc.2.1 && pr.passed, if pr.passed then acc.2.2 else some policy.name)
  else acc

/-- The policy loop of `validatePayment` over the engine's policy map
(every stored policy, in iteration order). -/
def evalPolicies (policies : List Policy) (transactions : List Transaction)
    (dayStart monthStart : ℤ) (ctx : PaymentContext) : ValidationSummary :=
  let fin := policies.foldl (policyLoopStep transactions dayStart monthStart ctx)
    ([], true, none)
  { approved := fin.2.1, results := fin.1, blockedBy := fin.2.2 }

/-- Process-wide and per-user safety flags (`lib/dataStore.ts` /
`lib/safety.ts`); the per-user records default to `false`. -/
structure SafetyState where
  paymentsPaused : Bool := false
  safeModeByUser : String → Bool := fun _ => false
  approvedSpendByUser : String → Bool := fun _ => false
  autoBudgetByUser : String → Bool := fun _ => false

/-- Embedding of `isSafeModeEnabled` of `lib/safety.ts`. -/
def isSafeModeEnabled (s : SafetyState) (userId : String) : Bool :=
  s.safeModeByUser userId

/-- Embedding of `hasUserApprovedOnce` of `lib/safety.ts`. -/
def hasUserApprovedOnce (s : SafetyState) (userId : String) : Bool :=
  s.approvedSpendByUser userId

/-- Embedding of `markUserApprovedOnce` of `lib/safety.ts`. -/
def markUserApprovedOnce (s : SafetyState) (userId : String) : SafetyState :=
  { s with approvedSpendByUser := fun u => if u = userId then true else s.approvedSpendByUser u }

/-- The safe-mode gate condition of `validatePayment`:
`userId && isSafeModeEnabled(userId) && !hasUserApprovedOnce(userId)`
(an empty user id string is falsy). -/
def requiresApprovalFor (safety : SafetyState) (userId : Option String) : Bool :=
  match userId with
  | some u =>
    if u = "" then false
    else isSafeModeEnabled safety u && !hasUserApprovedOnce safety u
  | none => false

/-- The summary returned when the kill switch is set. -/
def killSwitchSummary : ValidationSummary :=
  { approved := false, blockedBy := some "Kill Switch",
    results := [{ passed := false, policyId := "system", policyName := "Kill Switch",
                  reason := some .paymentsPausedBySafetySwitch }] }

/-- The summary returned when safe mode blocks an unapproved first spend. -/
def safeModeSummary : ValidationSummary :=
  { approved := false, blockedBy := some "Safe Mode",
    results := [{ passed := false, policyId := "system", policyName := "Safe Mode",
                  reason := some .approvalRequiredForFirstSpend }] }

/-- Embedding of `validatePayment` of `policy/engine.ts`: kill switch
first, then the safe-mode gate, then the policy loop; on an approved
payment that required the one-time approval, the approval is recorded.
Returns the summary together with the resulting safety state. -/
def validatePayment (safety : SafetyState) (policies : List Policy)
    (transactions : List Transaction) (dayStart monthStart : ℤ)
    (ctx : PaymentContext) : ValidationSummary × SafetyState :=
  if safety.paymentsPaused then (killSwitchSummary, safety)
  else
    let requiresApproval := requiresApprovalFor safety ctx.userId
    if requiresApproval && !ctx.approvedMeta then (safeModeSummary, safety)
    else
      let summary := evalPolicies policies transactions dayStart monthStart ctx
      let safety' :=
        if summary.approved && requiresApproval then
          match ctx.userId with
          | some u => markUserApprovedOnce safety u
          | none => safety
        else safety
      (summary, safety')

/-- Result of `transferUsdc` of `wallet.service.ts` (the settlement call
returns a structured result; its internal errors are caught and surfaced
as `success = false`). -/
structure TransferResult where
  success : Bool
  transactionId : Option String := none
  txHash : Option String := none
  state : Option String := none
  error : Option String := none
deriving DecidableEq

/-- Outcome of the awaited settlement call as observed by the executor's
`try` block: either a returned `TransferResult` or a thrown error. -/
inductive TransferOutcome
  | returns (r : TransferResult)
  | throws (message : String)
deriving DecidableEq

/-- The settlement wallet as used by the executor (only its address is
read). -/
structure WalletInfo where
  address : String
deriving DecidableEq

/-- The mutable treasury store relevant to payments: the balance and the
newest-first transaction list. -/
structure LedgerState where
  balance : Balance
  transactions : List Transaction
deriving DecidableEq

/-- Embedding of `recordTransaction` of `wallet.service.ts`: a fresh id
and creation timestamp, then `unshift` onto the transaction list.  The
generated id string is modelled by a number unused by the earlier
records. -/
def recordTransaction (st : LedgerState) (now : ℤ) (tx : Transaction) :
    Transaction × LedgerState :=
  let t := { tx with id := st.transactions.length + 1, createdAt := now }
  (t, { st with transactions := t :: st.transactions })

/-- The in-place mutation of `updateTransactionStatus`: set the status,
set `txHash` only when the given hash is truthy (non-empty), and set
`confirmedAt` exactly on a transition to confirmed. -/
def setTxStatus (now : ℤ) (status : TxStatus) (txHash : Option String)
    (tx : Transaction) : Transaction :=
  let t1 := { tx with status := status }
  let t2 := match txHash with
    | some h => if h = "" then t1 else { t1 with txHash := h }
    | none => t1
  if status = .confirmed then { t2 with confirmedAt := some now } else t2

/-- Update the first transaction matching the predicate, returning the new
list and the updated transaction when found. -/
def updateFirst (p : Transaction → Bool) (f : Transaction → Transaction) :
    List Transaction → List Transaction × Option Transaction
  | [] => ([], none)
  | tx :: rest =>
    if p tx then (f tx :: rest, some (f tx))
    else
      let next := updateFirst p f rest
      (tx :: next.1, next.2)

/-- Embedding of `updateTransactionStatus(txId, status, txHash?)` of
`wallet.service.ts`: find the transaction by id and mutate it; `null` and
no change when it is absent. -/
def updateTransactionStatus (st : LedgerState) (now : ℤ) (txId : Nat)
    (status : TxStatus) (txHash : Option String) : Option Transaction × LedgerState :=
  let upd := updateFirst (fun t => t.id = txId) (setTxStatus now status txHash)
    st.transactions
  match upd.2 with
  | none => (none, st)
  | some t => (some t, { st with transactions := upd.1 })

/-- A payment request as passed to `executePayment` (`payments/types.ts`);
`approvedMeta` carries `metadata.approved === true` after the executor
folds the user id into the metadata. -/
structure PaymentRequest where
  recipient : String
  amount : Option ℚ
  category : Option String := none
  description : Option String := none
  userId : Option String := none
  approvedMeta : Bool := false
deriving DecidableEq

/-- Tagged model of the executor's error message strings. -/
inductive ExecError
  | missingUserId
  | blockedByPolicy (name : Option String)
  | walletNotInitialized
  | insufficientFunds
  | transferFailed (message : Option String)
  | thrownError (message : String)
deriving DecidableEq

/-- The `policyResult` field of a `PaymentResult`. -/
structure PolicyResultSummary where
  passed : Bool
  appliedRules : List String
  blockedBy : Option String := none
deriving DecidableEq

/-- Final status of a payment attempt. -/
inductive PayStatus
  | completed
  | failed
deriving DecidableEq

/-- The structured result of `executePayment` (the generated `paymentId`
is not modelled). -/
structure PaymentResult where
  status : PayStatus
  txHash : Option String := none
  error : Option ExecError := none
  policyResult : PolicyResultSummary
deriving DecidableEq

/-- Trace of the ledger operations the executor performs, used to state
the compensation property. -/
inductive LedgerAction
  | reserveCall (amount : Option ℚ) (ok : Bool)
  | releaseCall (amount : Option ℚ)
  | recordCall (txId : Nat)
  | statusCall (txId : Nat) (status : TxStatus)
deriving DecidableEq

/-- Truthiness of an optional JavaScript string: missing or empty is
falsy. -/
def isFalsyStr (s : Option String) : Bool :=
  match s with
  | some v => v = ""
  | none => true

/-- JavaScript `a || b` for an optional string against a string default. -/
def jsStringOr (s : Option String) (d : String) : String :=
  match s with
  | some v => if v = "" then d else v
  | none => d

/-- The payment context the executor hands to the policy engine: the
request fields with the user id folded into the metadata. -/
def execCtx (request : PaymentRequest) : PaymentContext :=
  { amount := request.amount, recipient := request.recipient,
    category := request.category, description := request.description,
    userId := request.userId, approvedMeta := request.approvedMeta }

/-- Everything `executePayment` produces: the structured result, the
resulting treasury and safety state, and the trace of ledger calls made
after the policy decision. -/
structure ExecOutput where
  result : PaymentResult
  ledger : LedgerState
  safety : SafetyState
  trace : List LedgerAction

/-- Embedding of `executePayment` of `payments/executor.ts`.  The steps
mirror the source: reject a missing user id; run the policy engine (which
may record the one-time approval); require a wallet; reserve funds; record
a pending transaction; then settle, releasing the reservation and marking
the transaction failed on a structured failure or a thrown error, and
marking it confirmed and releasing the reservation on success. -/
def executePayment (safety : SafetyState) (policies : List Policy)
    (dayStart monthStart now : ℤ) (wallet : Option WalletInfo)
    (st : LedgerState) (request : PaymentRequest) (outcome : TransferOutcome) :
    ExecOutput :=
  if isFalsyStr request.userId then
    { result := { status := .failed, error := some .missingUserId,
                  policyResult := { passed := false, appliedRules := [],
                                    blockedBy := some "Missing User" } },
      ledger := st, safety := safety, trace := [] }
  else
    let validated := validatePayment safety policies st.transactions dayStart monthStart
      (execCtx request)
    let validation := validated.1
    let safety' := validated.2
    let appliedPolicies := validation.results.map (·.policyName)
    if !validation.approved then
      { result := { status := .failed, error := some (.blockedByPolicy validation.blockedBy),
                    policyResult := { passed := false, appliedRules := appliedPolicies,
                                      blockedBy := validation.blockedBy } },
        ledger := st, safety := safety', trace := [] }
    else
      match wallet with
      | none =>
        { result := { status := .failed, error := some .walletNotInitialized,
                      policyResult := { passed := true, appliedRules := appliedPolicies } },
          ledger := st, safety := safety', trace := [] }
      | some w =>
        let reserveStep := reserveFunds st.balance request.amount
        let st1 : LedgerState := { st with balance := reserveStep.1 }
        if !reserveStep.2 then
          { result := { status := .failed, error := some .insufficientFunds,
                        policyResult := { passed := true, appliedRules := appliedPolicies } },
            ledger := st1, safety := safety',
            trace := [.reserveCall request.amount false] }
        else
          let recorded := recordTransaction st1 now
            { txHash := "", fromAddr := w.address, toAddr := request.recipient,
              amount := request.amount, currency := "USDC", status := .pending,
              category := request.category, description := request.description,
              policy := some { approved := validation.approved,
                               appliedPolicies := appliedPolicies,
                               blockedBy := validation.blockedBy },
              userId := request.userId }
          let tx := recorded.1
          let st2 := recorded.2
          match outcome with
          | .returns r =>
            if !r.success then
              let st3 : LedgerState := { st2 with balance := releaseFunds st2.balance request.amount }
              let st4 := (updateTransactionStatus st3 now tx.id .failed none).2
              { result := { status := .failed, error := some (.transferFailed r.error),
                            policyResult := { passed := true, appliedRules := appliedPolicies } },
                ledger := st4, safety := safety',
                trace := [.reserveCall request.amount true, .recordCall tx.id,
                          .releaseCall request.amount, .statusCall tx.id .failed] }
            else
              let txHash := jsStringOr r.txHash (jsStringOr r.transactionId "")
              let st3 := (updateTransactionStatus st2 now tx.id .confirmed (some txHash)).2
              let st4 : LedgerState := { st3 with balance := releaseFunds st3.balance request.amount }
              { result := { status := .completed, txHash := some txHash,
                            policyResult := { passed := true, appliedRules := appliedPolicies } },
                ledger := st4, safety := safety',
                trace := [.reserveCall request.amount true, .recordCall tx.id,
                          .statusCall tx.id .confirmed, .releaseCall request.amount] }
          | .throws message =>
            let st3 : LedgerState := { st2 with balance := releaseFunds st2.balance request.amount }
            let st4 := (updateTransactionStatus st3 now tx.id .failed none).2
            { result := { status := .failed, error := some (.thrownError message),
                          policyResult := { passed := true, appliedRules := appliedPolicies } },
              ledger := st4, safety := safety',
              trace := [.reserveCall request.amount true, .recordCall tx.id,
                        .releaseCall request.amount, .statusCall tx.id .failed] }

/-- The payment requirements decoded from the `x-payment-required`
challenge header of a 402 response; `amount` holds the parse of the
amount string. -/
structure PaymentRequirements where
  amount : Option ℚ
  recipient : String
  resource : Option String := none
deriving DecidableEq

/-- Tagged model of the error strings produced by `x402Fetch`. -/
inductive X402Error
  | walletNotInitialized
  | noPaymentRequirements
  | parseFailed
  | blockedByPolicy (name : Option String)
  | paymentFailed (message : Option String)
deriving DecidableEq

/-- Response payload of `x402Fetch`: either a response body or the fixed
pending-confirmation message. -/
inductive X402Data
  | body (s : String)
  | pendingMessage
deriving DecidableEq

/-- The structured result of `x402Fetch` (`X402FetchResult` of
`x402-client.ts`). -/
structure X402FetchResult where
  success : Bool
  data : Option X402Data := none
  paymentMade : Option Bool := none
  paymentAmount : Option ℚ := none
  txHash : Option String := none
  error : Option X402Error := none
  policyBlocked : Option Bool := none
deriving DecidableEq

/-- The external observations of one `x402Fetch` run: the wallet lookup,
the initial response, the decode result of the challenge header (`none`
when the header is absent, `some none` when it does not parse), the host
of the url, the settlement call's result, and the retried response. -/
structure X402Env where
  wallet : Option WalletInfo
  initialStatus : Nat
  initialBody : String := ""
  paymentRequiredHeader : Option (Option PaymentRequirements) := none
  urlHost : String := ""
  transfer : TransferResult := { success := false }
  retryOk : Bool := false
  retryStatus : Nat := 0
  retryBody : String := ""

/-- Which externally visible payment steps `x402Fetch` performed: the
settlement transfer and the re-issued request carrying the payment
header. -/
structure X402Effects where
  transferInvoked : Bool
  paidRequestSent : Bool
deriving DecidableEq

/-- Everything `x402Fetch` produces. -/
structure X402Output where
  result : X402FetchResult
  ledger : LedgerState
  safety : SafetyState
  effects : X402Effects

/-- The payment context `x402Fetch` builds from a decoded challenge
(an empty recipient falls back to the url host, the category defaults to
the `x402-api` tag, and only the user id is carried in the metadata). -/
def x402Ctx (reqs : PaymentRequirements) (url : String) (urlHost : String)
    (category : Option String) (userId : Option String) : PaymentContext :=
  { amount := reqs.amount,
    recipient := jsStringOr (some reqs.recipient) urlHost,
    category := some (jsStrOr category "x402-api"),
    description := some ("x402 payment for " ++ url),
    userId := userId, approvedMeta := false }

/-- Embedding of `x402Fetch` of the x402 client: no wallet is a hard
failure; a non-402 initial response returns its body unpaid; a missing or
unparsable challenge header is a hard failure; a policy block stops the
flow before the transfer; a failed transfer is surfaced; a successful
transfer is recorded as a confirmed transaction and the request is retried
with the payment proof attached. -/
def x402Fetch (safety : SafetyState) (policies : List Policy)
    (dayStart monthStart now : ℤ) (st : LedgerState) (env : X402Env)
    (url : String) (category : Option String) (userId : Option String) :
    X402Output :=
  match env.wallet with
  | none =>
    { result := { success := false, error := some .walletNotInitialized },
      ledger := st, safety := safety, effects := ⟨false, false⟩ }
  | some _ =>
    if env.initialStatus ≠ 402 then
      { result := { success := true, data := some (.body env.initialBody),
                    paymentMade := some false },
        ledger := st, safety := safety, effects := ⟨false, false⟩ }
    else
      match env.paymentRequiredHeader with
      | none =>
        { result := { success := false, error := some .noPaymentRequirements },
          ledger := st, safety := safety, effects := ⟨false, false⟩ }
      | some none =>
        { result := { success := false, error := some .parseFailed },
          ledger := st, safety := safety, effects := ⟨false, false⟩ }
      | some (some reqs) =>
        let ctx := x402Ctx reqs url env.urlHost category userId
        let validated := validatePayment safety policies st.transactions dayStart monthStart ctx
        let policyCheck := validated.1
        let safety' := validated.2
        if !policyCheck.approved then
          { result := { success := false, policyBlocked := some true,
                        error := some (.blockedByPolicy policyCheck.blockedBy) },
            ledger := st, safety := safety', effects := ⟨false, false⟩ }
        else
          if !env.transfer.success then
            { result := { success := false,
                          error := some (.paymentFailed env.transfer.error) },
              ledger := st, safety := safety', effects := ⟨true, false⟩ }
          else
            let recorded := recordTransaction st now
              { txHash := (env.transfer.txHash).getD "",
                amount := reqs.amount, status := .confirmed,
                category := some (jsStrOr category "x402-api"),
                description := some ("x402 payment for " ++ url),
                userId := userId }
            let st1 := recorded.2
            if !env.retryOk && env.retryStatus ≠ 200 then
              { result := { success := true, paymentMade := some true,
                            paymentAmount := reqs.amount,
                            txHash := env.transfer.txHash,
                            data := some .pendingMessage },
                ledger := st1, safety := safety', effects := ⟨true, true⟩ }
            else
              { result := { success := true, data := some (.body env.retryBody),
                            paymentMade := some true,
                            paymentAmount := reqs.amount,
                            txHash := env.transfer.txHash },
                ledger := st1, safety := safety', effects := ⟨true, true⟩ }

/-- A single ledger balance operation, as callable from the service layer
(the amount argument carries the parse of the amount string). -/
inductive LedgerOp
  | reserve (amount : Option ℚ)
  | release (amount : Option ℚ)

/-- Apply one reserve/release operation to a balance. -/
def applyLedgerOp (b : Balance) : LedgerOp → Balance
  | .reserve amount => (reserveFunds b amount).1
  | .release amount => releaseFunds b amount

/-- Apply a sequence of reserve/release operations, left to right. -/
def applyLedgerOps (b : Balance) (ops : List LedgerOp) : Balance :=
  ops.foldl applyLedgerOp b

/-- The ledger invariant: `available + reserved = total`, both parts
non-negative. -/
def BalanceInvariant (b : Balance) : Prop :=
  b.available + b.reserved = b.amount ∧ 0 ≤ b.available ∧ 0 ≤ b.reserved

/-- Recogniser for release actions in an executor trace. -/
def isReleaseCall : LedgerAction → Bool
  | .releaseCall _ => true
  | _ => false

/-- The name the policy loop leaves in `blockedBy`: the name of the last
enabled policy whose evaluation fails (each failing policy overwrites the
field). -/
def lastFailingName (transactions : List Transaction) (dayStart monthStart : ℤ)
    (ctx : PaymentContext) : List Policy → Option String
  | [] => none
  | p :: rest =>
    match lastFailingName transactions dayStart monthStart ctx rest with
    | some n => some n
    | none =>
      if p.enabled && !(evalPolicy transactions dayStart monthStart ctx p).passed
      then some p.name else none

/-- Interpretation of the specification's owner-scoped daily aggregation:
the sum of the amounts of the owner's confirmed transactions whose
effective date is on or after the window start (no history truncation).
Written from the spec's words, for comparison against the code's
`confirmedSpendSince`. -/
def specOwnerDailySpend (transactions : List Transaction) (ownerId : Option String)
    (windowStart : ℤ) : ℚ :=
  ((transactions.filter (fun tx => tx.status = .confirmed ∧ tx.userId = ownerId)).filter
    (fun tx => windowStart ≤ effectiveDate tx)).foldl (fun s tx => s + tx.amount.getD 0) 0

/-- The untruncated confirmed spend in a window, over the whole
transaction store (used to quantify what the query limit excludes). -/
def allConfirmedSpendSince (transactions : List Transaction) (windowStart : ℤ) : ℚ :=
  ((transactions.filter (fun tx => tx.status = .confirmed)).filter
    (fun tx => windowStart ≤ effectiveDate tx)).foldl (fun s tx => s + tx.amount.getD 0) 0

/-- A store with a single confirmed same-day transaction of 45, owned by
`bob`, for the daily-limit boundary and owner-scoping scenarios. -/
def c8store : List Transaction :=
  [{ amount := some 45, status := .confirmed, userId := some "bob",
     createdAt := 0, confirmedAt := some 10 }]

/-- One confirmed same-day transaction of amount 1, replicated to build a
store with more confirmed transactions than the default history limit. -/
def c10tx : Transaction :=
  { amount := some 1, status := .confirmed, createdAt := 0, confirmedAt := some 10 }

lemma balanceInvariant_applyLedgerOp (b : Balance) (op : LedgerOp)
    (h : BalanceInvariant b) : BalanceInvariant (applyLedgerOp b op) := by
  obtain ⟨hsum, hav, hres⟩ := h
  cases op with
  | reserve amt =>
    cases amt with
    | none => exact ⟨hsum, hav, hres⟩
    | some a =>
      simp only [applyLedgerOp, reserveFunds]
      split_ifs with h1 h2
      · exact ⟨hsum, hav, hres⟩
      · exact ⟨hsum, hav, hres⟩
      · push_neg at h1 h2
        refine ⟨?_, ?_, ?_⟩ <;> simp <;> linarith
  | release amt =>
    cases amt with
    | none => exact ⟨hsum, hav, hres⟩
    | some a =>
      simp only [applyLedgerOp, releaseFunds]
      split_ifs with h1
      · exact ⟨hsum, hav, hres⟩
      · push_neg at h1
        have hmin1 : min a b.reserved ≤ b.reserved := min_le_right _ _
        have hmin2 : 0 ≤ min a b.reserved := le_min (le_of_lt h1.2) hres
        refine ⟨?_, ?_, ?_⟩ <;> simp <;> linarith

lemma balanceInvariant_applyLedgerOps (ops : List LedgerOp) :
    ∀ b : Balance, BalanceInvariant b → BalanceInvariant (applyLedgerOps b ops) := by
  induction ops with
  | nil => intro b h; exact h
  | cons op rest ih =>
    intro b h
    exact ih (applyLedgerOp b op) (balanceInvariant_applyLedgerOp b op h)

/-- **C2**: starting from a balance satisfying the ledger invariant
(`available + reserved = total`, both parts non-negative), every single
`reserveFunds`/`releaseFunds` operation and every sequence of such
operations preserves the invariant. -/
theorem c2_ledger_invariant (b : Balance) (h : BalanceInvariant b) :
    (∀ op : LedgerOp, BalanceInvariant (applyLedgerOp b op)) ∧
    (∀ ops : List LedgerOp, BalanceInvariant (applyLedgerOps b ops)) :=
  ⟨fun op => balanceInvariant_applyLedgerOp b op h,
   fun ops => balanceInvariant_applyLedgerOps ops b h⟩

/-- Witness for C2: the invariant holds for the initial mock balance and
is preserved across a concrete sequence of reserves and releases. -/
theorem c2_witness :
    BalanceInvariant ⟨100, 0, 100⟩ ∧
    BalanceInvariant (applyLedgerOps ⟨100, 0, 100⟩
      [.reserve (some 30), .release (some 10), .release (some 50), .reserve none]) := by
  have h : BalanceInvariant ⟨100, 0, 100⟩ := ⟨by norm_num, by norm_num, le_refl 0⟩
  exact ⟨h, (c2_ledger_invariant ⟨100, 0, 100⟩ h).2 _⟩

/-- Counterexample for **C3**: the claim says `reserveFunds` returns true
and moves the funds whenever `amount ≤ available`; for the amount `0`
(which satisfies `0 ≤ available` on the initial mock balance) the code
instead returns false. -/
theorem c3_counterexample :
    ((0 : ℚ) ≤ (Balance.mk 100 0 100).available) ∧
    reserveFunds ⟨100, 0, 100⟩ (some 0) = (⟨100, 0, 100⟩, false) := by
  constructor
  · norm_num
  · simp [reserveFunds]

/-- **C3 (amended)**: `reserveFunds(amount)` returns true exactly when the
amount parses to a positive value that is at most `available`; in that
case it moves the amount from available to reserved, and in every other
case it returns false and leaves the balance unchanged. -/
theorem c3_reserveFunds_guarded (b : Balance) (amt : Option ℚ) :
    ((reserveFunds b amt).2 = true ↔ ∃ a : ℚ, amt = some a ∧ 0 < a ∧ a ≤ b.available) ∧
    ((reserveFunds b amt).2 = false → (reserveFunds b amt).1 = b) ∧
    (∀ a : ℚ, amt = some a → 0 < a → a ≤ b.available →
      reserveFunds b amt =
        ({ amount := b.amount, reserved := b.reserved + a,
           available := b.available - a }, true)) := by
  refine ⟨?_, ?_, ?_⟩
  · cases amt with
    | none => simp [reserveFunds]
    | some a =>
      simp only [reserveFunds]
      split_ifs with h1 h2
      · simp only [Bool.false_eq_true, false_iff]
        rintro ⟨a', ha', hpos, -⟩
        obtain rfl : a = a' := Option.some.inj ha'
        linarith
      · simp only [Bool.false_eq_true, false_iff]
        rintro ⟨a', ha', -, hle⟩
        obtain rfl : a = a' := Option.some.inj ha'
        linarith
      · push_neg at h1 h2
        exact iff_of_true rfl ⟨a, rfl, h1, h2⟩
  · cases amt with
    | none => intro _; rfl
    | some a =>
      simp only [reserveFunds]
      split_ifs <;> simp
  · intro a ha hpos hle
    subst ha
    simp only [reserveFunds]
    rw [if_neg (by linarith), if_neg (by linarith)]

/-- Witness for C3 (amended): a positive amount within the available
balance is reserved. -/
theorem c3_witness :
    reserveFunds ⟨100, 0, 100⟩ (some 5) = (⟨100, 0 + 5, 100 - 5⟩, true) :=
  (c3_reserveFunds_guarded ⟨100, 0, 100⟩ (some 5)).2.2 5 rfl (by norm_num) (by norm_num)

/-- **C4**: whenever the process-wide kill switch is set, `validatePayment`
returns `approved = false`, `blockedBy = "Kill Switch"` with only the
system result entry, for every context and every policy list (including
the empty one), and leaves the safety state unchanged. -/
theorem c4_kill_switch_precedence (safety : SafetyState) (policies : List Policy)
    (transactions : List Transaction) (dayStart monthStart : ℤ)
    (ctx : PaymentContext) (h : safety.paymentsPaused = true) :
    validatePayment safety policies transactions dayStart monthStart ctx =
      ({ approved := false, blockedBy := some "Kill Switch",
         results := [{ passed := false, policyId := "system",
                       policyName := "Kill Switch",
                       reason := some .paymentsPausedBySafetySwitch }] }, safety) := by
  simp [validatePayment, h, killSwitchSummary]

/-- Witness for C4: with the kill switch set and zero policies configured,
a concrete payment is blocked by the kill switch. -/
theorem c4_witness :
    validatePayment { paymentsPaused := true } [] [] 0 0
        { amount := some 5, recipient := "0xabc" } =
      ({ approved := false, blockedBy := some "Kill Switch",
         results := [{ passed := false, policyId := "system",
                       policyName := "Kill Switch",
                       reason := some .paymentsPausedBySafetySwitch }] },
       { paymentsPaused := true }) :=
  c4_kill_switch_precedence { paymentsPaused := true } [] [] 0 0
    { amount := some 5, recipient := "0xabc" } rfl

/-- **C5**: for an owner with safe mode enabled and no recorded one-time
approval, a payment without the approved flag is blocked by "Safe Mode"
before any policy evaluation and the state is unchanged; the same payment
with the flag proceeds to policy evaluation, and, when approved, records
the one-time approval; once recorded, every subsequent payment from that
owner passes the gate without the flag (its result is exactly the policy
evaluation). -/
theorem c5_safe_mode_one_shot (safety : SafetyState) (policies : List Policy)
    (transactions : List Transaction) (dayStart monthStart : ℤ) (u : String)
    (ctx : PaymentContext)
    (hp : safety.paymentsPaused = false) (hu : u ≠ "")
    (hsm : isSafeModeEnabled safety u = true)
    (hap : hasUserApprovedOnce safety u = false)
    (hctx : ctx.userId = some u) :
    (ctx.approvedMeta = false →
      validatePayment safety policies transactions dayStart monthStart ctx =
        (safeModeSummary, safety)) ∧
    (ctx.approvedMeta = true →
      validatePayment safety policies transactions dayStart monthStart ctx =
        (evalPolicies policies transactions dayStart monthStart ctx,
         if (evalPolicies policies transactions dayStart monthStart ctx).approved then
           markUserApprovedOnce safety u
         else safety)) ∧
    hasUserApprovedOnce (markUserApprovedOnce safety u) u = true ∧
    (∀ (safety2 : SafetyState) (ctx2 : PaymentContext),
      safety2.paymentsPaused = false →
      hasUserApprovedOnce safety2 u = true →
      ctx2.userId = some u →
      validatePayment safety2 policies transactions dayStart monthStart ctx2 =
        (evalPolicies policies transactions dayStart monthStart ctx2, safety2)) := by
  have hreq : requiresApprovalFor safety ctx.userId = true := by
    rw [hctx]
    simp [requiresApprovalFor, hu, hsm, hap]
  refine ⟨?_, ?_, ?_, ?_⟩
  · intro hm
    simp [validatePayment, hp, hreq, hm]
  · intro hm
    have hreq' : requiresApprovalFor safety (some u) = true := hctx ▸ hreq
    simp [validatePayment, hp, hreq, hm, hctx, hreq']
  · simp [hasUserApprovedOnce, markUserApprovedOnce]
  · intro safety2 ctx2 hp2 hap2 hctx2
    have hreq2 : requiresApprovalFor safety2 ctx2.userId = false := by
      rw [hctx2]
      simp [requiresApprovalFor, hu, hap2]
    simp [validatePayment, hp2, hreq2]

/-- Witness for C5: a concrete safe-mode owner is blocked without the
flag, approved with it (recording the approval), and passes thereafter
without the flag. -/
theorem c5_witness :
    validatePayment { safeModeByUser := fun v => v == "alice" } [] [] 0 0
        { amount := some 5, recipient := "0xy", userId := some "alice" } =
      (safeModeSummary, { safeModeByUser := fun v => v == "alice" }) ∧
    validatePayment { safeModeByUser := fun v => v == "alice" } [] [] 0 0
        { amount := some 5, recipient := "0xy", userId := some "alice",
          approvedMeta := true } =
      ({ approved := true, results := [], blockedBy := none },
       markUserApprovedOnce { safeModeByUser := fun v => v == "alice" } "alice") ∧
    hasUserApprovedOnce
      (markUserApprovedOnce { safeModeByUser := fun v => v == "alice" } "alice")
      "alice" = true ∧
    validatePayment
        (markUserApprovedOnce { safeModeByUser := fun v => v == "alice" } "alice")
        [] [] 0 0 { amount := some 7, recipient := "0xz", userId := some "alice" } =
      ({ approved := true, results := [], blockedBy := none },
       markUserApprovedOnce { safeModeByUser := fun v => v == "alice" } "alice") := by
  obtain ⟨h1, h2, h3, h4⟩ :=
    c5_safe_mode_one_shot { safeModeByUser := fun v => v == "alice" } [] [] 0 0 "alice"
      { amount := some 5, recipient := "0xy", userId := some "alice" }
      rfl (by decide) (by decide) (by decide) rfl
  obtain ⟨h1', h2', h3', h4'⟩ :=
    c5_safe_mode_one_shot { safeModeByUser := fun v => v == "alice" } [] [] 0 0 "alice"
      { amount := some 5, recipient := "0xy", userId := some "alice",
        approvedMeta := true }
      rfl (by decide) (by decide) (by decide) rfl
  refine ⟨h1 rfl, ?_, h3, ?_⟩
  · have := h2' rfl
    simpa [evalPolicies] using this
  · have := h4' (markUserApprovedOnce { safeModeByUser := fun v => v == "alice" } "alice")
      { amount := some 7, recipient := "0xz", userId := some "alice" } rfl h3' rfl
    simpa [evalPolicies] using this

lemma policyLoop_results (transactions : List Transaction) (dayStart monthStart : ℤ)
    (ctx : PaymentContext) :
    ∀ (policies : List Policy) (acc : List PolicyValidationResult × Bool × Option String),
      (policies.foldl (policyLoopStep transactions dayStart monthStart ctx) acc).1 =
        acc.1 ++ (policies.filter (fun p => p.enabled)).map
          (evalPolicy transactions dayStart monthStart ctx) := by
  intro policies
  induction policies with
  | nil => intro acc; simp
  | cons p rest ih =>
    intro acc
    by_cases hp : p.enabled
    · simp [policyLoopStep, hp, ih]
    · simp [policyLoopStep, hp, ih]

lemma policyLoop_approved (transactions : List Transaction) (dayStart monthStart : ℤ)
    (ctx : PaymentContext) :
    ∀ (policies : List Policy) (acc : List PolicyValidationResult × Bool × Option String),
      (policies.foldl (policyLoopStep transactions dayStart monthStart ctx) acc).2.1 =
        (acc.2.1 && (policies.filter (fun p => p.enabled)).all
          (fun p => (evalPolicy transactions dayStart monthStart ctx p).passed)) := by
  intro policies
  induction policies with
  | nil => intro acc; simp
  | cons p rest ih =>
    intro acc
    by_cases hp : p.enabled
    · simp [policyLoopStep, hp, ih, Bool.and_assoc]
    · simp [policyLoopStep, hp, ih]

lemma policyLoop_blockedBy (transactions : List Transaction) (dayStart monthStart : ℤ)
    (ctx : PaymentContext) :
    ∀ (policies : List Policy) (acc : List PolicyValidationResult × Bool × Option String),
      (policies.foldl (policyLoopStep transactions dayStart monthStart ctx) acc).2.2 =
        (match lastFailingName transactions dayStart monthStart ctx policies with
         | some n => some n
         | none => acc.2.2) := by
  intro policies
  induction policies with
  | nil => intro acc; simp [lastFailingName]
  | cons p rest ih =>
    intro acc
    rw [List.foldl_cons, ih]
    by_cases hp : p.enabled
    · by_cases hpass : (evalPolicy transactions dayStart monthStart ctx p).passed
      · simp [policyLoopStep, hp, hpass, lastFailingName]
        cases lastFailingName transactions dayStart monthStart ctx rest <;> simp
      · simp only [Bool.not_eq_true] at hpass
        simp [policyLoopStep, hp, hpass, lastFailingName]
        cases lastFailingName transactions dayStart monthStart ctx rest <;> simp
    · simp [policyLoopStep, hp, lastFailingName]
      cases lastFailingName transactions dayStart monthStart ctx rest <;> simp

lemma evalPolicies_spec (policies : List Policy) (transactions : List Transaction)
    (dayStart monthStart : ℤ) (ctx : PaymentContext) :
    evalPolicies policies transactions dayStart monthStart ctx =
      { approved := (policies.filter (fun p => p.enabled)).all
          (fun p => (evalPolicy transactions dayStart monthStart ctx p).passed),
        results := (policies.filter (fun p => p.enabled)).map
          (evalPolicy transactions dayStart monthStart ctx),
        blockedBy := lastFailingName transactions dayStart monthStart ctx policies } := by
  unfold evalPolicies
  rw [ValidationSummary.mk.injEq]
  refine ⟨?_, ?_, ?_⟩
  · rw [policyLoop_approved]; simp
  · rw [policyLoop_results]; simp
  · rw [policyLoop_blockedBy]
    cases lastFailingName transactions dayStart monthStart ctx policies <;> simp

lemma policyLoop_owner_invariant (transactions : List Transaction)
    (dayStart monthStart : ℤ) (ctx : PaymentContext) (f : Policy → Option String) :
    ∀ (policies : List Policy) (acc : List PolicyValidationResult × Bool × Option String),
      (policies.map (fun p => { p with userId := f p })).foldl
          (policyLoopStep transactions dayStart monthStart ctx) acc =
        policies.foldl (policyLoopStep transactions dayStart monthStart ctx) acc := by
  intro policies
  induction policies with
  | nil => intro acc; rfl
  | cons p rest ih =>
    intro acc
    simp only [List.map_cons, List.foldl_cons]
    rw [show policyLoopStep transactions dayStart monthStart ctx acc { p with userId := f p } =
          policyLoopStep transactions dayStart monthStart ctx acc p from rfl]
    exact ih _

lemma validatePayment_owner_invariant (safety : SafetyState) (policies : List Policy)
    (transactions : List Transaction) (dayStart monthStart : ℤ) (ctx : PaymentContext)
    (f : Policy → Option String) :
    validatePayment safety (policies.map (fun p => { p with userId := f p }))
        transactions dayStart monthStart ctx =
      validatePayment safety policies transactions dayStart monthStart ctx := by
  unfold validatePayment evalPolicies
  rw [policyLoop_owner_invariant]

/-- Counterexample for **C6**: a single enabled policy owned by `bob`
blocks a payment requested by `alice` and appears in the returned
results, so a policy of a different owner does affect the requester's
decision. -/
theorem c6_counterexample :
    (validatePayment {}
        [{ id := "p-bob", userId := some "bob", name := "Bobs Cap",
           rules := [.maxPerTransaction (some 1)] }]
        [] 0 0
        { amount := some 5, recipient := "0xabc", userId := some "alice" }).1 =
      { approved := false,
        results := [{ passed := false, policyId := "p-bob", policyName := "Bobs Cap",
                      failedRule := some "maxPerTransaction",
                      reason := some (.exceedsMax 5 1) }],
        blockedBy := some "Bobs Cap" } := by
  decide

/-- **C6 (amended)**: `validatePayment` evaluates every enabled policy in
the engine's store regardless of owner — the results list is exactly the
evaluation of all enabled policies, and the whole outcome is invariant
under arbitrarily reassigning the policies' owners. -/
theorem c6_all_owners_policies_evaluated (safety : SafetyState)
    (policies : List Policy) (transactions : List Transaction)
    (dayStart monthStart : ℤ) (ctx : PaymentContext)
    (hp : safety.paymentsPaused = false)
    (hgate : requiresApprovalFor safety ctx.userId = false ∨ ctx.approvedMeta = true) :
    (validatePayment safety policies transactions dayStart monthStart ctx).1.results =
      (policies.filter (fun p => p.enabled)).map
        (evalPolicy transactions dayStart monthStart ctx) ∧
    (∀ f : Policy → Option String,
      validatePayment safety (policies.map (fun p => { p with userId := f p }))
          transactions dayStart monthStart ctx =
        validatePayment safety policies transactions dayStart monthStart ctx) := by
  have hg : (requiresApprovalFor safety ctx.userId && !ctx.approvedMeta) = false := by
    rcases hgate with h | h <;> simp [h]
  constructor
  · simp [validatePayment, hp, hg, evalPolicies_spec]
  · intro f
    exact validatePayment_owner_invariant safety policies transactions dayStart monthStart ctx f

/-- Witness for C6 (amended): with no safety gate active, the results of
a concrete validation are the evaluations of the enabled policies, owner
notwithstanding. -/
theorem c6_witness :
    (validatePayment {}
        [{ id := "p-bob", userId := some "bob", name := "Bobs Cap",
           rules := [.maxPerTransaction (some 1)] }]
        [] 0 0
        { amount := some 5, recipient := "0xabc", userId := some "alice" }).1.results =
      (([{ id := "p-bob", userId := some "bob", name := "Bobs Cap",
           rules := [.maxPerTransaction (some 1)] }] : List Policy).filter
        (fun p => p.enabled)).map
        (evalPolicy [] 0 0
          { amount := some 5, recipient := "0xabc", userId := some "alice" }) :=
  (c6_all_owners_policies_evaluated {}
    [{ id := "p-bob", userId := some "bob", name := "Bobs Cap",
       rules := [.maxPerTransaction (some 1)] }]
    [] 0 0
    { amount := some 5, recipient := "0xabc", userId := some "alice" }
    rfl (Or.inl (by decide))).1

/-- Counterexample for **C7**: with two enabled policies that both fail,
`blockedBy` is the name of the second (last) failing policy, not the
first. -/
theorem c7_counterexample :
    (evalPolicy [] 0 0 { amount := some 5, recipient := "0xabc" }
        { id := "p1", name := "First Cap",
          rules := [.maxPerTransaction (some 1)] }).passed = false ∧
    (evalPolicy [] 0 0 { amount := some 5, recipient := "0xabc" }
        { id := "p2", name := "Second Cap",
          rules := [.maxPerTransaction (some 2)] }).passed = false ∧
    (validatePayment {}
        [{ id := "p1", name := "First Cap", rules := [.maxPerTransaction (some 1)] },
         { id := "p2", name := "Second Cap", rules := [.maxPerTransaction (some 2)] }]
        [] 0 0 { amount := some 5, recipient := "0xabc" }).1.blockedBy =
      some "Second Cap" ∧
    (some "Second Cap" : Option String) ≠ some "First Cap" ∧
    (validatePayment {}
        [{ id := "p1", name := "First Cap", rules := [.maxPerTransaction (some 1)] },
         { id := "p2", name := "Second Cap", rules := [.maxPerTransaction (some 2)] }]
        [] 0 0 { amount := some 5, recipient := "0xabc" }).1.results.length = 2 := by
  decide

/-- **C7 (amended)**: when at least one enabled policy fails,
`validatePayment` returns `blockedBy` equal to the name of the **last**
failing policy in evaluation order (each failing policy overwrites the
field); it still records a per-policy result for every enabled policy,
and `approved = true` exactly when every enabled policy passes. -/
theorem c7_blockedBy_last_failing (safety : SafetyState) (policies : List Policy)
    (transactions : List Transaction) (dayStart monthStart : ℤ) (ctx : PaymentContext)
    (hp : safety.paymentsPaused = false)
    (hgate : requiresApprovalFor safety ctx.userId = false ∨ ctx.approvedMeta = true) :
    ((validatePayment safety policies transactions dayStart monthStart ctx).1.approved = true ↔
      ∀ p ∈ policies, p.enabled = true →
        (evalPolicy transactions dayStart monthStart ctx p).passed = true) ∧
    (validatePayment safety policies transactions dayStart monthStart ctx).1.results =
      (policies.filter (fun p => p.enabled)).map
        (evalPolicy transactions dayStart monthStart ctx) ∧
    (validatePayment safety policies transactions dayStart monthStart ctx).1.blockedBy =
      lastFailingName transactions dayStart monthStart ctx policies := by
  have hg : (requiresApprovalFor safety ctx.userId && !ctx.approvedMeta) = false := by
    rcases hgate with h | h <;> simp [h]
  refine ⟨?_, ?_, ?_⟩
  · simp [validatePayment, hp, hg, evalPolicies_spec, List.all_eq_true, List.mem_filter]
    constructor
    · intro h p hmem he
      rcases h p hmem with h' | h'
      · exact absurd he (by simp [h'])
      · exact h'
    · intro h p hmem
      by_cases he : p.enabled = true
      · exact Or.inr (h p hmem he)
      · exact Or.inl (by simpa using he)
  · simp [validatePayment, hp, hg, evalPolicies_spec]
  · simp [validatePayment, hp, hg, evalPolicies_spec]

/-- Witness for C7 (amended): on a concrete two-policy store where both
policies fail, `blockedBy` is exactly the last failing name. -/
theorem c7_witness :
    (validatePayment {}
        [{ id := "p1", name := "First Cap", rules := [.maxPerTransaction (some 1)] },
         { id := "p2", name := "Second Cap", rules := [.maxPerTransaction (some 2)] }]
        [] 0 0 { amount := some 5, recipient := "0xabc" }).1.blockedBy =
      lastFailingName [] 0 0 { amount := some 5, recipient := "0xabc" }
        [{ id := "p1", name := "First Cap", rules := [.maxPerTransaction (some 1)] },
         { id := "p2", name := "Second Cap", rules := [.maxPerTransaction (some 2)] }] :=
  (c7_blockedBy_last_failing {}
    [{ id := "p1", name := "First Cap", rules := [.maxPerTransaction (some 1)] },
     { id := "p2", name := "Second Cap", rules := [.maxPerTransaction (some 2)] }]
    [] 0 0 { amount := some 5, recipient := "0xabc" } rfl (Or.inl (by decide))).2.2

lemma c8store_spend : confirmedSpendSince c8store 5 = 45 := by
  norm_num [confirmedSpendSince, getTransactionHistory, c8store, effectiveDate, List.filter]

/-- Counterexample for **C8**: the `dailyLimit` rule fails a payment by
`alice` because of a same-day confirmed transaction that belongs to `bob`;
the requesting owner's own confirmed same-day spend is 0, and
`0 + 10 ≤ 50`, so the claimed owner-scoped aggregation would have let the
payment pass. -/
theorem c8_counterexample :
    (evaluateRule c8store 5 0 (.dailyLimit (some 50))
        { amount := some 10, recipient := "0xabc", userId := some "alice" }).passed =
      false ∧
    specOwnerDailySpend c8store (some "alice") 5 = 0 ∧
    (0 : ℚ) + 10 ≤ 50 := by
  refine ⟨?_, ?_, by norm_num⟩
  · norm_num [evaluateRule, c8store_spend]
  · norm_num [specOwnerDailySpend, c8store, List.filter]

/-- **C8 (amended)**: the `dailyLimit{limit}` rule sums the amounts of
**all** confirmed transactions in the shared store (not only the
requesting owner's, and only over the history query's window of the 50
most recently recorded) whose `confirmedAt` (fallback `createdAt`) is on
or after the day start, and fails exactly when that sum plus the new
amount strictly exceeds the limit; with limit 50 and prior same-day
confirmed spend of exactly 45, a new amount of 5 passes and 5.01 fails. -/
theorem c8_daily_limit_boundary :
    (∀ (transactions : List Transaction) (dayStart monthStart : ℤ)
        (ctx : PaymentContext) (limit amount : ℚ),
      ctx.amount = some amount → 0 < amount → 0 < limit →
      ((evaluateRule transactions dayStart monthStart (.dailyLimit (some limit))
          ctx).passed = true ↔
        confirmedSpendSince transactions dayStart + amount ≤ limit)) ∧
    confirmedSpendSince c8store 5 = 45 ∧
    (evaluateRule c8store 5 0 (.dailyLimit (some 50))
        { amount := some 5, recipient := "0xa" }).passed = true ∧
    (evaluateRule c8store 5 0 (.dailyLimit (some 50))
        { amount := some (501/100), recipient := "0xa" }).passed = false := by
  refine ⟨?_, c8store_spend, ?_, ?_⟩
  · intro transactions dayStart monthStart ctx limit amount hamt hpos hlim
    simp only [evaluateRule, hamt]
    rw [if_neg (by push_neg; exact ⟨hpos, hlim⟩)]
    by_cases h : limit < confirmedSpendSince transactions dayStart + amount
    · rw [if_pos h]
      simp only [Bool.false_eq_true, false_iff, not_le]
      exact h
    · rw [if_neg h]
      simp only [true_iff]
      linarith [not_lt.mp h]
  · norm_num [evaluateRule, c8store_spend]
  · norm_num [evaluateRule, c8store_spend]

/-- Witness for C8 (amended): the boundary characterization instantiated
on the concrete 45-spent store with a new amount of 5. -/
theorem c8_witness :
    (evaluateRule c8store 5 0 (.dailyLimit (some 50))
        { amount := some 5, recipient := "0xa" }).passed = true ↔
      confirmedSpendSince c8store 5 + 5 ≤ 50 :=
  c8_daily_limit_boundary.1 c8store 5 0
    { amount := some 5, recipient := "0xa" } 50 5 rfl (by norm_num) (by norm_num)

lemma c10_filter_replicate (p : Transaction → Bool) (h : p c10tx = true) (n : ℕ) :
    (List.replicate n c10tx).filter p = List.replicate n c10tx := by
  induction n with
  | zero => simp
  | succ k ih => simp [List.replicate_succ, h, ih]

lemma c10_foldl_replicate (n : ℕ) (q : ℚ) :
    (List.replicate n c10tx).foldl (fun s tx => s + tx.amount.getD 0) q = q + n := by
  induction n generalizing q with
  | zero => simp
  | succ k ih =>
    rw [List.replicate_succ, List.foldl_cons, ih]
    push_cast
    norm_num [c10tx]
    ring

lemma c10_trunc_spend : confirmedSpendSince (List.replicate 51 c10tx) 5 = 50 := by
  simp only [confirmedSpendSince, getTransactionHistory, List.drop_zero]
  rw [c10_filter_replicate _ (by decide), List.take_replicate,
    show min 50 51 = 50 from by norm_num,
    c10_filter_replicate _ (by decide), c10_foldl_replicate]
  norm_num

lemma c10_all_spend : allConfirmedSpendSince (List.replicate 51 c10tx) 5 = 51 := by
  simp only [allConfirmedSpendSince]
  rw [c10_filter_replicate _ (by decide), c10_filter_replicate _ (by decide),
    c10_foldl_replicate]
  norm_num

/-- **C10**: the confirmed-history query the spend rules use returns the
first 50 confirmed transactions of the newest-first store (the default
query limit), so with 51 same-day confirmed transactions of amount 1 the
computed spend is 50, not the true 51: the oldest confirmed transaction
is silently excluded, and the daily-limit and monthly-budget rules pass a
payment of 0.4 against a limit of 50.5 that the untruncated spend
exceeds. -/
theorem c10_history_truncation :
    (∀ transactions : List Transaction,
      getTransactionHistory transactions { status := some .confirmed } none =
        (transactions.filter (fun tx => tx.status = .confirmed)).take 50) ∧
    confirmedSpendSince (List.replicate 51 c10tx) 5 = 50 ∧
    allConfirmedSpendSince (List.replicate 51 c10tx) 5 = 51 ∧
    (evaluateRule (List.replicate 51 c10tx) 5 5 (.dailyLimit (some (101/2)))
        { amount := some (2/5), recipient := "0xa" }).passed = true ∧
    (evaluateRule (List.replicate 51 c10tx) 5 5 (.monthlyBudget (some (101/2)))
        { amount := some (2/5), recipient := "0xa" }).passed = true ∧
    ¬ (allConfirmedSpendSince (List.replicate 51 c10tx) 5 + 2/5 ≤ 101/2) := by
  refine ⟨fun transactions => rfl, c10_trunc_spend, c10_all_spend, ?_, ?_, ?_⟩
  · norm_num [evaluateRule, c10_trunc_spend]
  · norm_num [evaluateRule, c10_trunc_spend]
  · rw [c10_all_spend]
    norm_num

/-- **C9**: when the policy check reports a block during an x402 exchange,
`x402Fetch` returns `success = false`, `policyBlocked = true` and an error
carrying the blocking policy name, the treasury state is untouched, and
neither the transfer/signing step nor the paid retry request is ever
performed. -/
theorem c9_policy_block_stops_flow (safety : SafetyState) (policies : List Policy)
    (dayStart monthStart now : ℤ) (st : LedgerState) (env : X402Env)
    (url : String) (category : Option String) (userId : Option String)
    (w : WalletInfo) (reqs : PaymentRequirements)
    (hw : env.wallet = some w) (h402 : env.initialStatus = 402)
    (hh : env.paymentRequiredHeader = some (some reqs))
    (hblock : (validatePayment safety policies st.transactions dayStart monthStart
        (x402Ctx reqs url env.urlHost category userId)).1.approved = false) :
    (x402Fetch safety policies dayStart monthStart now st env url category userId).result =
      { success := false, policyBlocked := some true,
        error := some (.blockedByPolicy
          (validatePayment safety policies st.transactions dayStart monthStart
            (x402Ctx reqs url env.urlHost category userId)).1.blockedBy) } ∧
    (x402Fetch safety policies dayStart monthStart now st env url category
        userId).effects = ⟨false, false⟩ ∧
    (x402Fetch safety policies dayStart monthStart now st env url category
        userId).ledger = st := by
  refine ⟨?_, ?_, ?_⟩ <;> simp [x402Fetch, hw, h402, hh, hblock]

/-- Witness for C9: a concrete 402 challenge for an amount of 5 against a
max-per-transaction policy of 1 is blocked; no transfer happens and no
paid retry is sent. -/
theorem c9_witness :
    (x402Fetch {} [{ id := "p1", name := "Cap", rules := [.maxPerTransaction (some 1)] }]
        0 0 0 ⟨⟨0, 0, 0⟩, []⟩
        { wallet := some ⟨"0xme"⟩, initialStatus := 402,
          paymentRequiredHeader := some (some { amount := some 5, recipient := "0xdef" }),
          urlHost := "api.example" }
        "https://api.example/paid" none (some "alice")).result =
      { success := false, policyBlocked := some true,
        error := some (.blockedByPolicy (some "Cap")) } ∧
    (x402Fetch {} [{ id := "p1", name := "Cap", rules := [.maxPerTransaction (some 1)] }]
        0 0 0 ⟨⟨0, 0, 0⟩, []⟩
        { wallet := some ⟨"0xme"⟩, initialStatus := 402,
          paymentRequiredHeader := some (some { amount := some 5, recipient := "0xdef" }),
          urlHost := "api.example" }
        "https://api.example/paid" none (some "alice")).effects = ⟨false, false⟩ := by
  obtain ⟨h1, h2, h3⟩ := c9_policy_block_stops_flow {}
    [{ id := "p1", name := "Cap", rules := [.maxPerTransaction (some 1)] }]
    0 0 0 ⟨⟨0, 0, 0⟩, []⟩
    { wallet := some ⟨"0xme"⟩, initialStatus := 402,
      paymentRequiredHeader := some (some { amount := some 5, recipient := "0xdef" }),
      urlHost := "api.example" }
    "https://api.example/paid" none (some "alice")
    ⟨"0xme"⟩ { amount := some 5, recipient := "0xdef" }
    rfl rfl rfl (by decide)
  refine ⟨?_, h2⟩
  rw [h1]
  decide

lemma reserveFunds_true_elim (b : Balance) (amt : Option ℚ)
    (h : (reserveFunds b amt).2 = true) :
    ∃ a : ℚ, amt = some a ∧ 0 < a ∧ a ≤ b.available := by
  cases amt with
  | none => simp [reserveFunds] at h
  | some a =>
    simp only [reserveFunds] at h
    by_cases h1 : a ≤ 0
    · rw [if_pos h1] at h; simp at h
    · by_cases h2 : b.available < a
      · rw [if_neg h1, if_pos h2] at h; simp at h
      · exact ⟨a, rfl, lt_of_not_le h1, le_of_not_lt h2⟩

lemma reserveFunds_success (b : Balance) (a : ℚ) (h1 : 0 < a) (h2 : a ≤ b.available) :
    reserveFunds b (some a) =
      ({ amount := b.amount, reserved := b.reserved + a,
         available := b.available - a }, true) := by
  simp only [reserveFunds]
  rw [if_neg (by linarith), if_neg (by linarith)]

lemma releaseFunds_inverts (b : Balance) (a : ℚ) (h1 : 0 < a) (hr : 0 ≤ b.reserved) :
    releaseFunds { amount := b.amount, reserved := b.reserved + a,
                   available := b.available - a } (some a) = b := by
  simp only [releaseFunds]
  rw [if_neg (by push_neg; exact ⟨by positivity, h1⟩)]
  rw [min_eq_left (by linarith : a ≤ b.reserved + a)]
  obtain ⟨T, R, A⟩ := b
  simp only [Balance.mk.injEq]
  exact ⟨trivial, by ring, by ring⟩

/-- **C1**: whenever `executePayment` reaches the reservation step and
`reserveFunds` returns true, every exit path performs exactly one
compensating `releaseFunds` with the reserved amount: on a structured
settlement failure or a thrown settlement error, the funds are released
and the recorded transaction is marked failed; on settlement success, the
transaction is marked confirmed and the funds are released; in all cases
the final balance equals the balance before the reservation. -/
theorem c1_reservation_always_compensated (safety : SafetyState)
    (policies : List Policy) (dayStart monthStart now : ℤ) (w : WalletInfo)
    (st : LedgerState) (request : PaymentRequest) (outcome : TransferOutcome)
    (hu : isFalsyStr request.userId = false)
    (happ : (validatePayment safety policies st.transactions dayStart monthStart
        (execCtx request)).1.approved = true)
    (hres : (reserveFunds st.balance request.amount).2 = true)
    (hr0 : 0 ≤ st.balance.reserved) :
    ((executePayment safety policies dayStart monthStart now (some w) st request
        outcome).trace.filter isReleaseCall = [.releaseCall request.amount]) ∧
    (executePayment safety policies dayStart monthStart now (some w) st request
        outcome).ledger.balance = st.balance ∧
    (∀ r, outcome = .returns r → r.success = true →
      (executePayment safety policies dayStart monthStart now (some w) st request
          outcome).result.status = .completed ∧
      (executePayment safety policies dayStart monthStart now (some w) st request
          outcome).trace =
        [.reserveCall request.amount true,
         .recordCall (st.transactions.length + 1),
         .statusCall (st.transactions.length + 1) .confirmed,
         .releaseCall request.amount] ∧
      ((executePayment safety policies dayStart monthStart now (some w) st request
          outcome).ledger.transactions.head?.map (fun t => t.status)) =
        some .confirmed) ∧
    (∀ r, outcome = .returns r → r.success = false →
      (executePayment safety policies dayStart monthStart now (some w) st request
          outcome).result.status = .failed ∧
      (executePayment safety policies dayStart monthStart now (some w) st request
          outcome).trace =
        [.reserveCall request.amount true,
         .recordCall (st.transactions.length + 1),
         .releaseCall request.amount,
         .statusCall (st.transactions.length + 1) .failed] ∧
      ((executePayment safety policies dayStart monthStart now (some w) st request
          outcome).ledger.transactions.head?.map (fun t => t.status)) =
        some .failed) ∧
    (∀ m, outcome = .throws m →
      (executePayment safety policies dayStart monthStart now (some w) st request
          outcome).result.status = .failed ∧
      (executePayment safety policies dayStart monthStart now (some w) st request
          outcome).trace =
        [.reserveCall request.amount true,
         .recordCall (st.transactions.length + 1),
         .releaseCall request.amount,
         .statusCall (st.transactions.length + 1) .failed] ∧
      ((executePayment safety policies dayStart monthStart now (some w) st request
          outcome).ledger.transactions.head?.map (fun t => t.status)) =
        some .failed) := by
  obtain ⟨a, ha, hpos, hle⟩ := reserveFunds_true_elim st.balance request.amount hres
  have hresv := reserveFunds_success st.balance a hpos hle
  have hrel := releaseFunds_inverts st.balance a hpos hr0
  rcases outcome with r | m
  · cases hrs : r.success
    · refine ⟨?_, ?_, ?_, ?_, ?_⟩
      · simp [executePayment, hu, happ, ha, hresv, hrs, recordTransaction,
          updateTransactionStatus, updateFirst, setTxStatus, isReleaseCall]
      · simp [executePayment, hu, happ, ha, hresv, hrs, recordTransaction,
          updateTransactionStatus, updateFirst, setTxStatus, hrel]
      · intro r' hr' hs
        obtain rfl : r = r' := by injection hr'
        rw [hrs] at hs; cases hs
      · intro r' hr' hs
        obtain rfl : r = r' := by injection hr'
        refine ⟨?_, ?_, ?_⟩ <;>
          simp [executePayment, hu, happ, ha, hresv, hrs, recordTransaction,
            updateTransactionStatus, updateFirst, setTxStatus]
      · intro m hm; cases hm
    · refine ⟨?_, ?_, ?_, ?_, ?_⟩
      · simp [executePayment, hu, happ, ha, hresv, hrs, recordTransaction,
          updateTransactionStatus, updateFirst, setTxStatus, isReleaseCall]
      · simp [executePayment, hu, happ, ha, hresv, hrs, recordTransaction,
          updateTransactionStatus, updateFirst, setTxStatus, hrel]
      · intro r' hr' hs
        obtain rfl : r = r' := by injection hr'
        refine ⟨?_, ?_, ?_⟩ <;>
          (simp [executePayment, hu, happ, ha, hresv, hrs, recordTransaction,
            updateTransactionStatus, updateFirst, setTxStatus];
           try (split <;> rfl))
      · intro r' hr' hs
        obtain rfl : r = r' := by injection hr'
        rw [hrs] at hs; cases hs
      · intro m hm; cases hm
  · refine ⟨?_, ?_, ?_, ?_, ?_⟩
    · simp [executePayment, hu, happ, ha, hresv, recordTransaction,
        updateTransactionStatus, updateFirst, setTxStatus, isReleaseCall]
    · simp [executePayment, hu, happ, ha, hresv, recordTransaction,
        updateTransactionStatus, updateFirst, setTxStatus, hrel]
    · intro r' hr'; cases hr'
    · intro r' hr'; cases hr'
    · intro m' hm'
      refine ⟨?_, ?_, ?_⟩ <;>
        simp [executePayment, hu, happ, ha, hresv, recordTransaction,
          updateTransactionStatus, updateFirst, setTxStatus]

/-- Witness for C1: a concrete approved payment of 5 over an empty policy
store reserves and, after a successful settlement, confirms the recorded
transaction and restores the balance. -/
theorem c1_witness :
    (executePayment {} [] 0 0 7 (some ⟨"0xme"⟩) ⟨⟨100, 0, 100⟩, []⟩
        { recipient := "0xdef", amount := some 5, userId := some "alice" }
        (.returns { success := true, txHash := some "0xh" })).trace =
      [.reserveCall (some 5) true, .recordCall 1, .statusCall 1 .confirmed,
       .releaseCall (some 5)] ∧
    (executePayment {} [] 0 0 7 (some ⟨"0xme"⟩) ⟨⟨100, 0, 100⟩, []⟩
        { recipient := "0xdef", amount := some 5, userId := some "alice" }
        (.returns { success := true, txHash := some "0xh" })).ledger.balance =
      ⟨100, 0, 100⟩ ∧
    (executePayment {} [] 0 0 7 (some ⟨"0xme"⟩) ⟨⟨100, 0, 100⟩, []⟩
        { recipient := "0xdef", amount := some 5, userId := some "alice" }
        (.returns { success := true, txHash := some "0xh" })).result.status =
      .completed := by
  obtain ⟨h1, h2, h3, h4, h5⟩ := c1_reservation_always_compensated {} [] 0 0 7
    ⟨"0xme"⟩ ⟨⟨100, 0, 100⟩, []⟩
    { recipient := "0xdef", amount := some 5, userId := some "alice" }
    (.returns { success := true, txHash := some "0xh" })
    (by decide) (by decide) (by decide) (by norm_num)
  obtain ⟨hs1, hs2, hs3⟩ := h3 { success := true, txHash := some "0xh" } rfl rfl
  exact ⟨by simpa using hs2, h2, hs1⟩
